import Mathlib

/-!
Shallow embedding of the pyacq core excerpt:
- `src/pyacq/core/host.py` (class `Host`)
- `src/pyacq/core/tools.py` (classes `ThreadPollInput`, `ThreadStreamConverter`,
  `ThreadSplitter`, `ChannelSplitter`)

Collaborators imported by `host.py` but not part of the excerpt
(`ProcessSpawner`, `RPCServer`, `NodeGroup`) are modelled from the spec
(see the doc comments marked "Modelled from the spec").

Python exceptions are modelled by the `PyError` inductive; a method that can
raise returns the raised error together with the object state at the moment of
the raise (in-place mutations performed before the raise are kept, as in
Python). Side effects on the outside world (spawning a process, stopping it,
closing the RPC server) are recorded as an explicit event trace.
-/

namespace Pyacq

/-- Error kinds. The code raises plain `assert`/`KeyError`; the spec names the
assertion failures `AlreadyExists` (duplicate NodeGroup name in
`Host.create_nodegroup`) and `NodesStillRunning` (non-forced
`Host.close_nodegroup` with a running Node). -/
inductive PyError
  /-- `assert name not in self.nodegroup_process, 'This node group already exists'` -/
  | alreadyExists
  /-- `assert not client.any_node_running(), 'Try to close Host but Node are running'` -/
  | nodesStillRunning
  /-- `self.nodegroup_process[name]` with an unregistered name -/
  | keyError
  /-- Modelled from the spec: §4.2, a spawn that does not confirm readiness
  in time fails with "SpawnTimeout". -/
  | spawnTimeout
  /-- A Python `TypeError` (e.g. calling a method with too many positional
  arguments). -/
  | typeError
  /-- A Python `ValueError` (e.g. `min([])`). -/
  | valueError
  /-- `assert min(chans)>=0 and max(chans)<n, 'output_channels do not match channel count'`
  in `ChannelSplitter.after_input_connect`. -/
  | channelOutOfRange
  deriving DecidableEq, Repr

/-- Modelled from the spec: §4.2 — `ProcessSpawner` (file
`pyacq/core/processspawner.py`, not in the excerpt) returns a handle exposing
`.name`, `.addr`, a client proxy `.client` and a `.stop` control. The only
remote call `host.py` makes through the proxy is
`client.any_node_running()` (spec §4.6: reports whether at least one hosted
Node is Running); we model its reply as the field `any_node_running`. -/
structure ProcessHandle where
  name : String
  addr : String
  any_node_running : Bool
  deriving DecidableEq, Repr

/-- Observable side effects of `Host` methods on the outside world. -/
inductive HostEvent
  /-- `ProcessSpawner(NodeGroup, name, addr)` spawned a NodeGroup process. -/
  | spawned (name addr : String)
  /-- `self.nodegroup_process[name].stop()` stopped the spawned process. -/
  | processStopped (name : String)
  /-- `del self.nodegroup_process[name]` removed the registry entry. -/
  | entryRemoved (name : String)
  /-- `RPCServer.close(self)` shut down the Host's own remote-call server
  (modelled from the spec, §4.1). -/
  | rpcServerClosed
  deriving DecidableEq, Repr

/-- `Host.__init__`: `self.nodegroup_process = {}` — the name → handle
registry, a Python dict modelled as an association list (insertion order,
unique keys by construction). `server_closed` models the state of the
RPC server the Host itself runs on (modelled from the spec, §4.1). -/
structure Host where
  nodegroup_process : List (String × ProcessHandle)
  server_closed : Bool
  deriving DecidableEq, Repr

/-- `name in self.nodegroup_process` / `self.nodegroup_process[name]`:
first-match lookup in the registry. -/
def lookupNg : List (String × ProcessHandle) → String → Option ProcessHandle
  | [], _ => none
  | (k, v) :: t, n => if k = n then some v else lookupNg t n

/-- `del self.nodegroup_process[name]`: remove the entry for `name`. -/
def eraseNg : List (String × ProcessHandle) → String → List (String × ProcessHandle)
  | [], _ => []
  | (k, v) :: t, n => if k = n then t else (k, v) :: eraseNg t n

/-- Number of registry entries carrying a given name (for a Python dict this
is 0 or 1). -/
def countNg : List (String × ProcessHandle) → String → Nat
  | [], _ => 0
  | (k, _) :: t, n => (if k = n then 1 else 0) + countNg t n

/-- `list(self.nodegroup_process.keys())`. -/
def ngKeys (h : Host) : List String :=
  h.nodegroup_process.map Prod.fst

/-- `Host.__init__(name, addr)` (registry part): an empty registry. -/
def Host.init : Host :=
  { nodegroup_process := [], server_closed := false }

/-- `Host.create_nodegroup(name, addr)`:

    assert name not in self.nodegroup_process, 'This node group already exists'
    ps = ProcessSpawner(NodeGroup, name, addr)
    self.nodegroup_process[name] = ps
    return ps.name, ps.addr

`spawner` stands for `ProcessSpawner(NodeGroup, ·, ·)`; it may fail (spec
§4.2), in which case the exception propagates before the registry insert. -/
def Host.create_nodegroup (spawner : String → String → Except PyError ProcessHandle)
    (h : Host) (name addr : String) :
    Except PyError (String × String) × Host × List HostEvent :=
  if (lookupNg h.nodegroup_process name).isSome then
    (.error .alreadyExists, h, [])
  else
    match spawner name addr with
    | .error e => (.error e, h, [])
    | .ok ps =>
      (.ok (ps.name, ps.addr),
       { h with nodegroup_process := h.nodegroup_process ++ [(name, ps)] },
       [.spawned name addr])

/-- `Host.close_nodegroup(name, force=False)`:

    client = self.nodegroup_process[name].client
    if not force:
        assert not client.any_node_running(), 'Try to close Host but Node are running'
    self.nodegroup_process[name].stop()
    del self.nodegroup_process[name]
-/
def Host.close_nodegroup (h : Host) (name : String) (force : Bool) :
    Except PyError Unit × Host × List HostEvent :=
  match lookupNg h.nodegroup_process name with
  | none => (.error .keyError, h, [])
  | some ps =>
    if !force && ps.any_node_running then
      (.error .nodesStillRunning, h, [])
    else
      (.ok (), { h with nodegroup_process := eraseNg h.nodegroup_process name },
       [.processStopped name, .entryRemoved name])

/-- The `for name in list(self.nodegroup_process.keys())` loop of
`Host.close_all_nodegroups`, iterating over a snapshot of the keys; an
exception raised by one iteration propagates. -/
def Host.close_loop (force : Bool) : List String → Host →
    Except PyError Unit × Host × List HostEvent
  | [], h => (.ok (), h, [])
  | n :: rest, h =>
    match Host.close_nodegroup h n force with
    | (.error e, h1, evs) => (.error e, h1, evs)
    | (.ok (), h1, evs) =>
      match Host.close_loop force rest h1 with
      | (r, h2, evs2) => (r, h2, evs ++ evs2)

/-- `Host.close_all_nodegroups(force=False)`. -/
def Host.close_all_nodegroups (h : Host) (force : Bool) :
    Except PyError Unit × Host × List HostEvent :=
  Host.close_loop force (ngKeys h) h

/-- `Host.close()`:

    self.close_all_nodegroups(force=True)
    RPCServer.close(self)
-/
def Host.close (h : Host) : Except PyError Unit × Host × List HostEvent :=
  match h.close_all_nodegroups true with
  | (.error e, h1, evs) => (.error e, h1, evs)
  | (.ok (), h1, evs) =>
    (.ok (), { h1 with server_closed := true }, evs ++ [.rpcServerClosed])

/-- Modelled from the spec: §4.2 — a successful spawn returns a handle whose
`.name` and `.addr` are the requested name and address of the new process's
remote-call server; `anyRunning` is the (modelled) later reply of the
NodeGroup's `any_node_running()`. -/
def specSpawner (anyRunning : Bool) : String → String → Except PyError ProcessHandle :=
  fun name addr => .ok { name := name, addr := addr, any_node_running := anyRunning }

theorem lookupNg_append_of_none (l₁ l₂ : List (String × ProcessHandle)) (n : String)
    (h : lookupNg l₁ n = none) : lookupNg (l₁ ++ l₂) n = lookupNg l₂ n := by
  induction l₁ with
  | nil => simp
  | cons p t ih =>
    obtain ⟨k, v⟩ := p
    by_cases hk : k = n
    · simp [lookupNg, hk] at h
    · simp [lookupNg, hk] at h ⊢
      exact ih h

theorem lookupNg_eq_none_iff_countNg_zero (l : List (String × ProcessHandle)) (n : String) :
    lookupNg l n = none ↔ countNg l n = 0 := by
  induction l with
  | nil => simp [lookupNg, countNg]
  | cons p t ih =>
    obtain ⟨k, v⟩ := p
    by_cases hk : k = n <;> simp [lookupNg, countNg, hk, ih]

theorem countNg_append (l₁ l₂ : List (String × ProcessHandle)) (n : String) :
    countNg (l₁ ++ l₂) n = countNg l₁ n + countNg l₂ n := by
  induction l₁ with
  | nil => simp [countNg]
  | cons p t ih => obtain ⟨k, v⟩ := p; simp [countNg, ih]; omega

theorem countNg_eraseNg (l : List (String × ProcessHandle)) (n : String) :
    countNg (eraseNg l n) n = countNg l n - (if (lookupNg l n).isSome then 1 else 0) := by
  induction l with
  | nil => simp [eraseNg, countNg, lookupNg]
  | cons p t ih =>
    obtain ⟨k, v⟩ := p
    by_cases hk : k = n <;> simp [eraseNg, countNg, lookupNg, hk, ih]

theorem lookupNg_eraseNg_of_countNg_one (l : List (String × ProcessHandle)) (n : String)
    (hc : countNg l n = 1) : lookupNg (eraseNg l n) n = none := by
  rw [lookupNg_eq_none_iff_countNg_zero, countNg_eraseNg, hc]
  cases hs : (lookupNg l n).isSome with
  | true => simp
  | false =>
    exfalso
    have : lookupNg l n = none := by
      cases h : lookupNg l n with
      | none => rfl
      | some v => rw [h] at hs; simp at hs
    rw [lookupNg_eq_none_iff_countNg_zero] at this
    omega

theorem close_loop_force (sc : Bool) (l : List (String × ProcessHandle)) :
    Host.close_loop true (List.map Prod.fst l) { nodegroup_process := l, server_closed := sc }
      = (.ok (), { nodegroup_process := [], server_closed := sc },
         l.flatMap fun p => [HostEvent.processStopped p.1, HostEvent.entryRemoved p.1]) := by
  induction l with
  | nil => simp [Host.close_loop]
  | cons p t ih =>
    obtain ⟨k, v⟩ := p
    simp [Host.close_loop, Host.close_nodegroup, lookupNg, eraseNg, ih]

/-- C1: on a Host where `name` is fresh, `create_nodegroup` spawns the
process, records the handle under `name`, and returns the handle's
`(name, addr)` pair; a second call with the same name fails with
`AlreadyExists`, leaves the Host unchanged, and exactly one entry with that
name remains registered. -/
theorem create_nodegroup_twice (h : Host)
    (spawner : String → String → Except PyError ProcessHandle)
    (name addr : String) (ps : ProcessHandle)
    (hfresh : lookupNg h.nodegroup_process name = none)
    (hspawn : spawner name addr = .ok ps) :
    Host.create_nodegroup spawner h name addr
      = (.ok (ps.name, ps.addr),
         { h with nodegroup_process := h.nodegroup_process ++ [(name, ps)] },
         [.spawned name addr]) ∧
    Host.create_nodegroup spawner
        { h with nodegroup_process := h.nodegroup_process ++ [(name, ps)] } name addr
      = (.error .alreadyExists,
         { h with nodegroup_process := h.nodegroup_process ++ [(name, ps)] }, []) ∧
    countNg (h.nodegroup_process ++ [(name, ps)]) name = 1 := by
  refine ⟨?_, ?_, ?_⟩
  · simp [Host.create_nodegroup, hfresh, hspawn]
  · have hl : lookupNg (h.nodegroup_process ++ [(name, ps)]) name = some ps := by
      rw [lookupNg_append_of_none _ _ _ hfresh]; simp [lookupNg]
    simp [Host.create_nodegroup, hl]
  · rw [countNg_append]
    have h0 : countNg h.nodegroup_process name = 0 :=
      (lookupNg_eq_none_iff_countNg_zero _ _).mp hfresh
    simp [h0, countNg]

/-- Witness for C1 at a concrete Host, spawner and name. -/
theorem create_nodegroup_twice_witness :
    Host.create_nodegroup (specSpawner false) Host.init "ng0" "tcp://127.0.0.1:6000"
      = (.ok ("ng0", "tcp://127.0.0.1:6000"),
         { nodegroup_process := [("ng0", ⟨"ng0", "tcp://127.0.0.1:6000", false⟩)],
           server_closed := false },
         [.spawned "ng0" "tcp://127.0.0.1:6000"]) ∧
    Host.create_nodegroup (specSpawner false)
        { nodegroup_process := [("ng0", ⟨"ng0", "tcp://127.0.0.1:6000", false⟩)],
          server_closed := false } "ng0" "tcp://127.0.0.1:6000"
      = (.error .alreadyExists,
         { nodegroup_process := [("ng0", ⟨"ng0", "tcp://127.0.0.1:6000", false⟩)],
           server_closed := false }, []) ∧
    countNg [("ng0", (⟨"ng0", "tcp://127.0.0.1:6000", false⟩ : ProcessHandle))] "ng0" = 1 :=
  create_nodegroup_twice Host.init (specSpawner false) "ng0" "tcp://127.0.0.1:6000"
    ⟨"ng0", "tcp://127.0.0.1:6000", false⟩ rfl rfl

/-- C2: on a registered NodeGroup name, `close_nodegroup(name, force=False)`
fails with `NodesStillRunning` whenever the NodeGroup reports a running
Node (and the Host is unchanged), while `close_nodegroup(name, force=True)`
always succeeds, stops the spawned process and removes the entry, so that
the name is no longer registered. -/
theorem close_nodegroup_force (h : Host) (name : String) (ps : ProcessHandle)
    (hreg : lookupNg h.nodegroup_process name = some ps)
    (hone : countNg h.nodegroup_process name = 1) :
    (ps.any_node_running = true →
      Host.close_nodegroup h name false = (.error .nodesStillRunning, h, [])) ∧
    Host.close_nodegroup h name true
      = (.ok (), { h with nodegroup_process := eraseNg h.nodegroup_process name },
         [.processStopped name, .entryRemoved name]) ∧
    lookupNg (eraseNg h.nodegroup_process name) name = none := by
  refine ⟨?_, ?_, ?_⟩
  · intro hrun
    simp [Host.close_nodegroup, hreg, hrun]
  · simp [Host.close_nodegroup, hreg]
  · exact lookupNg_eraseNg_of_countNg_one _ _ hone

/-- Witness for C2 at a concrete one-entry Host whose NodeGroup reports a
running Node. -/
theorem close_nodegroup_force_witness :
    ((⟨"ng0", "a", true⟩ : ProcessHandle).any_node_running = true →
      Host.close_nodegroup
          { nodegroup_process := [("ng0", ⟨"ng0", "a", true⟩)], server_closed := false }
          "ng0" false
        = (.error .nodesStillRunning,
           { nodegroup_process := [("ng0", ⟨"ng0", "a", true⟩)], server_closed := false },
           [])) ∧
    Host.close_nodegroup
        { nodegroup_process := [("ng0", ⟨"ng0", "a", true⟩)], server_closed := false }
        "ng0" true
      = (.ok (),
         { nodegroup_process := eraseNg [("ng0", ⟨"ng0", "a", true⟩)] "ng0",
           server_closed := false },
         [.processStopped "ng0", .entryRemoved "ng0"]) ∧
    lookupNg (eraseNg [("ng0", (⟨"ng0", "a", true⟩ : ProcessHandle))] "ng0") "ng0" = none :=
  close_nodegroup_force
    { nodegroup_process := [("ng0", ⟨"ng0", "a", true⟩)], server_closed := false }
    "ng0" ⟨"ng0", "a", true⟩ rfl rfl

/-- C3: `Host.close()` always succeeds; it emits, for every owned NodeGroup
in registry order, a process-stop event followed by the registry-entry
removal, all of this strictly before the Host's own remote-call server is
shut down; afterwards the Host owns zero NodeGroups. -/
theorem host_close_spec (h : Host) :
    Host.close h
      = (.ok (), { nodegroup_process := [], server_closed := true },
         (h.nodegroup_process.flatMap fun p =>
            [HostEvent.processStopped p.1, HostEvent.entryRemoved p.1])
           ++ [HostEvent.rpcServerClosed]) := by
  obtain ⟨l, sc⟩ := h
  simp [Host.close, Host.close_all_nodegroups, ngKeys, close_loop_force]

/-- C4: if the process spawn inside `create_nodegroup` fails, the exception
propagates, the registry is unchanged and no partial entry for the requested
name exists. -/
theorem create_nodegroup_spawn_failure (h : Host)
    (spawner : String → String → Except PyError ProcessHandle)
    (name addr : String) (e : PyError)
    (hfresh : lookupNg h.nodegroup_process name = none)
    (hfail : spawner name addr = .error e) :
    Host.create_nodegroup spawner h name addr = (.error e, h, []) ∧
    lookupNg (Host.create_nodegroup spawner h name addr).2.1.nodegroup_process name = none := by
  have hmain : Host.create_nodegroup spawner h name addr = (.error e, h, []) := by
    simp [Host.create_nodegroup, hfresh, hfail]
  exact ⟨hmain, by rw [hmain]; exact hfresh⟩

/-- Witness for C4 at a concrete Host and a spawner failing with
`SpawnTimeout`. -/
theorem create_nodegroup_spawn_failure_witness :
    Host.create_nodegroup (fun _ _ => .error .spawnTimeout) Host.init "ng0" "tcp://h:1"
      = (.error .spawnTimeout, Host.init, []) ∧
    lookupNg
        (Host.create_nodegroup (fun _ _ => .error .spawnTimeout) Host.init
          "ng0" "tcp://h:1").2.1.nodegroup_process "ng0" = none :=
  create_nodegroup_spawn_failure Host.init (fun _ _ => .error .spawnTimeout)
    "ng0" "tcp://h:1" .spawnTimeout rfl rfl

/-- C10: when `close_nodegroup(name, force=False)` fails because the
NodeGroup reports a running Node, the Host is unchanged: no stop or removal
event is emitted and the NodeGroup remains registered under its name. -/
theorem close_nodegroup_noforce_unchanged (h : Host) (name : String) (ps : ProcessHandle)
    (hreg : lookupNg h.nodegroup_process name = some ps)
    (hrun : ps.any_node_running = true) :
    Host.close_nodegroup h name false = (.error .nodesStillRunning, h, []) ∧
    lookupNg (Host.close_nodegroup h name false).2.1.nodegroup_process name = some ps := by
  have hmain : Host.close_nodegroup h name false = (.error .nodesStillRunning, h, []) := by
    simp [Host.close_nodegroup, hreg, hrun]
  exact ⟨hmain, by rw [hmain]; exact hreg⟩

/-- Witness for C10 at a concrete one-entry Host with a running Node. -/
theorem close_nodegroup_noforce_unchanged_witness :
    Host.close_nodegroup
        { nodegroup_process := [("ng0", ⟨"ng0", "a", true⟩)], server_closed := false }
        "ng0" false
      = (.error .nodesStillRunning,
         { nodegroup_process := [("ng0", ⟨"ng0", "a", true⟩)], server_closed := false },
         []) ∧
    lookupNg
        (Host.close_nodegroup
            { nodegroup_process := [("ng0", ⟨"ng0", "a", true⟩)], server_closed := false }
            "ng0" false).2.1.nodegroup_process "ng0"
      = some ⟨"ng0", "a", true⟩ :=
  close_nodegroup_noforce_unchanged
    { nodegroup_process := [("ng0", ⟨"ng0", "a", true⟩)], server_closed := false }
    "ng0" ⟨"ng0", "a", true⟩ rfl rfl

/-- A 2-D numpy chunk as carried by a stream message: outer index time
(axis 0), inner index channel (axis 1), integer samples. -/
abbrev StreamArray := List (List Int)

/-- `self.input_stream = weakref.ref(input_stream)` in
`ThreadPollInput.__init__`: a non-owning reference to the one observed
InputStream, identified here by an id; whether it still resolves is decided
by the environment at each wake. -/
structure WeakStreamRef where
  stream_id : Nat
  deriving DecidableEq, Repr

/-- The state `ThreadPollInput.__init__` sets up: the weak stream reference,
the poll `timeout`, the cooperative `running` flag (guarded by
`running_lock`) and the last received position `self._pos`. -/
structure ThreadPollInput where
  input_stream : WeakStreamRef
  timeout : Nat
  running : Bool
  _pos : Option Nat
  deriving DecidableEq, Repr

/-- `ThreadPollInput.__init__(input_stream, timeout=200)`. -/
def ThreadPollInput.init (input_stream : Nat) (timeout : Nat) : ThreadPollInput :=
  { input_stream := ⟨input_stream⟩, timeout := timeout,
    running := false, _pos := none }

/-- `ThreadPollInput.stop()`: `with self.running_lock: self.running = False`. -/
def ThreadPollInput.stop (t : ThreadPollInput) : ThreadPollInput :=
  { t with running := false }

/-- What the environment presents to one iteration of the `run` loop:
whether `stop()` had been called before the loop reacquired `running_lock`
(the flag only ever goes from `True` to `False` once `run` has started),
whether the weak reference still resolves (`self.input_stream() is not
None`), the value `ev = poll(timeout)` returns, and the `(position, data)`
that `recv()` would deliver. -/
structure PollTick where
  stop_before : Bool
  stream_alive : Bool
  poll_result : Int
  recv_pos : Nat
  recv_data : Option StreamArray
  deriving DecidableEq, Repr

/-- The `while True` loop of `ThreadPollInput.run`:

    while True:
        with self.running_lock:
            if not self.running:
                break
            if self.input_stream() is None:
                break
        ev = self.input_stream().poll(timeout=self.timeout)
        if ev>0:
            self._pos, data = self.input_stream().recv()
            self.process_data(self._pos, data)

The result is the list of `(position, data)` dispatches handed to
`process_data`, over a finite schedule of loop wakes. -/
def ThreadPollInput.loop : Bool → List PollTick → List (Nat × Option StreamArray)
  | _, [] => []
  | running0, t :: rest =>
    let running := running0 && !t.stop_before
    if running = false then []
    else if t.stream_alive = false then []
    else if t.poll_result > 0 then
      (t.recv_pos, t.recv_data) :: ThreadPollInput.loop running rest
    else
      ThreadPollInput.loop running rest

/-- `ThreadPollInput.run()`: `with self.running_lock: self.running = True`,
then the polling loop. -/
def ThreadPollInput.run (ticks : List PollTick) : List (Nat × Option StreamArray) :=
  ThreadPollInput.loop true ticks

/-- A wake at which both under-lock checks pass: no `stop()` has happened
and the weak stream reference still resolves. -/
def PollTick.passes (t : PollTick) : Bool :=
  !t.stop_before && t.stream_alive

/-- The dispatch a passing wake produces: `(position, data)` exactly when
`poll` returned a strictly positive count. -/
def dispatchOf (t : PollTick) : Option (Nat × Option StreamArray) :=
  if t.poll_result > 0 then some (t.recv_pos, t.recv_data) else none

theorem loop_eq_takeWhile_filterMap (ticks : List PollTick) :
    ThreadPollInput.loop true ticks
      = (ticks.takeWhile PollTick.passes).filterMap dispatchOf := by
  induction ticks with
  | nil => rfl
  | cons t rest ih =>
    by_cases hs : t.stop_before <;> by_cases ha : t.stream_alive <;>
      by_cases hp : t.poll_result > 0 <;>
        simp [ThreadPollInput.loop, PollTick.passes, dispatchOf,
          List.takeWhile_cons, List.filterMap_cons, hs, ha, hp, ih]

theorem takeWhile_eq_takeWhile_take (p : PollTick → Bool) (l : List PollTick) (i : Nat)
    (h : ∀ tk ∈ l.drop i, p tk = false) :
    l.takeWhile p = (l.take i).takeWhile p := by
  induction l generalizing i with
  | nil => simp
  | cons x xs ih =>
    cases i with
    | zero =>
      have hx : p x = false := h x (by simp)
      simp [List.takeWhile_cons, hx]
    | succ j =>
      rw [List.take_succ_cons, List.takeWhile_cons, List.takeWhile_cons]
      cases hp : p x
      · rfl
      · rw [ih j (fun tk htk => h tk (by simpa using htk))]


/-- C5: on every loop iteration of `ThreadPollInput.run`, the `running` flag
and the survival of the weakly referenced InputStream are checked under
`running_lock` and the loop exits when either check fails; the dispatches to
`process_data` are exactly the `(position, data)` pairs of those wakes in
the longest prefix passing both checks at which `poll(timeout)` returned a
strictly positive count; and `__init__` binds the poller to the single given
InputStream through a non-owning weak reference, with the flag initially
cleared. -/
theorem run_dispatch_characterization (ticks : List PollTick) (sid tmo : Nat) :
    ThreadPollInput.run ticks
      = (ticks.takeWhile PollTick.passes).filterMap dispatchOf ∧
    (ThreadPollInput.init sid tmo).input_stream = ⟨sid⟩ ∧
    (ThreadPollInput.init sid tmo).running = false :=
  ⟨loop_eq_takeWhile_filterMap ticks, rfl, rfl⟩

/-- C6: `stop()` clears the `running` flag under the same `running_lock` the
loop reads it under; cancellation is cooperative — once `stop()` has
happened before every wake from index `i` on, the loop observes the cleared
flag at its next wake and exits, so the dispatches of the whole schedule are
exactly those of the first `i` wakes: after `stop()` followed by
`wait()`/join, no further dispatch occurs. -/
theorem stop_is_cooperative (t : ThreadPollInput) (ticks : List PollTick) (i : Nat)
    (hstop : ((ticks.drop i).all fun tk => tk.stop_before) = true) :
    (ThreadPollInput.stop t).running = false ∧
    ThreadPollInput.run ticks = ThreadPollInput.run (ticks.take i) := by
  refine ⟨rfl, ?_⟩
  show ThreadPollInput.loop true ticks = ThreadPollInput.loop true (ticks.take i)
  rw [loop_eq_takeWhile_filterMap, loop_eq_takeWhile_filterMap]
  rw [takeWhile_eq_takeWhile_take PollTick.passes ticks i]
  intro tk htk
  have hsb : tk.stop_before = true := by
    rw [List.all_eq_true] at hstop
    exact hstop tk htk
  simp [PollTick.passes, hsb]

/-- Witness for C6: a schedule of two wakes, the first delivering data, the
second after `stop()`; only the first wake's dispatch happens. -/
theorem stop_is_cooperative_witness :
    (ThreadPollInput.stop (ThreadPollInput.init 0 200)).running = false ∧
    ThreadPollInput.run
        [{ stop_before := false, stream_alive := true, poll_result := 8,
           recv_pos := 10, recv_data := none },
         { stop_before := true, stream_alive := true, poll_result := 8,
           recv_pos := 11, recv_data := none }]
      = ThreadPollInput.run
          ([{ stop_before := false, stream_alive := true, poll_result := 8,
              recv_pos := 10, recv_data := none },
            { stop_before := true, stream_alive := true, poll_result := 8,
              recv_pos := 11, recv_data := none }].take 1) :=
  stop_is_cooperative (ThreadPollInput.init 0 200)
    [{ stop_before := false, stream_alive := true, poll_result := 8,
       recv_pos := 10, recv_data := none },
     { stop_before := true, stream_alive := true, poll_result := 8,
       recv_pos := 11, recv_data := none }] 1 (by decide)

/-- Column selection `data[:, chans]` of a 2-D array (numpy fancy indexing
on the channel axis): every row keeps exactly the listed channels, in the
listed order. -/
def colSelect (data : StreamArray) (chans : List Int) : StreamArray :=
  data.map fun row => chans.map fun c => row.getD c.toNat 0

/-- One channel of a 2-D array, read down the time axis. -/
def column (m : StreamArray) (c : Nat) : List Int :=
  m.map fun row => row.getD c 0

/-- `ThreadSplitter.process_data(pos, data)`:

    if data is None:
        #sharred_array case
        data = self.input_stream().get_array_slice(pos, None)
    for k, chans in self.output_channels.items():
        self.outputs_stream[k].send(pos, data[:, chans])

`get_array_slice` stands for the input stream's zero-copy fetch; the result
is the list of `(output name, position, data)` messages sent downstream. -/
def ThreadSplitter.process_data (output_channels : List (String × List Int))
    (get_array_slice : Nat → StreamArray)
    (pos : Nat) (data : Option StreamArray) : List (String × Nat × StreamArray) :=
  let d := match data with
    | none => get_array_slice pos
    | some d0 => d0
  output_channels.map fun kc => (kc.1, pos, colSelect d kc.2)

/-- `ThreadStreamConverter.process_data(pos, data)`:

    if 'transfermode' in self.conversions and self.conversions['transfermode'][0]=='sharedarray':
        data = self.input_stream().get_array_slice(self, pos, None)
    self.output_stream().send(pos, data)

`conversions` is the dict built by `StreamConverter._initialize` (key →
`(old, new)` value pair). The slice-fetch branch calls `get_array_slice` —
signature `get_array_slice(position, length)` (spec §4.3; `stream.py` is not
part of the excerpt) — with three positional arguments `(self, pos, None)`:
the thread object itself is passed as an extra first argument, so the call
raises `TypeError` before any data is fetched (compare
`ThreadSplitter.process_data`, whose call `get_array_slice(pos, None)` is
well-formed). On the non-raising path the function returns the
`(position, data)` message sent downstream. -/
def ThreadStreamConverter.process_data (conversions : List (String × String × String))
    (pos : Nat) (data : Option StreamArray) :
    Except PyError (Nat × Option StreamArray) :=
  match conversions.find? (fun kv => kv.1 = "transfermode") with
  | some (_, old, _) =>
    if old = "sharedarray" then .error .typeError
    else .ok (pos, data)
  | none => .ok (pos, data)

/-- C7: a `ThreadSplitter` configured with groups
`{"a": [0, 1], "b": [2, 3]}` over a 4-channel input sends, for every chunk,
exactly one message per output; both messages carry the input position; the
two columns of output `"a"` are input channels 0 and 1, the two columns of
output `"b"` are input channels 2 and 3, and every row of either output has
exactly two entries — no other channel is routed. -/
theorem channel_split_routing (gs : Nat → StreamArray) (pos : Nat) (data : StreamArray) :
    ThreadSplitter.process_data [("a", [0, 1]), ("b", [2, 3])] gs pos (some data)
      = [("a", pos, colSelect data [0, 1]), ("b", pos, colSelect data [2, 3])] ∧
    column (colSelect data [0, 1]) 0 = column data 0 ∧
    column (colSelect data [0, 1]) 1 = column data 1 ∧
    column (colSelect data [2, 3]) 0 = column data 2 ∧
    column (colSelect data [2, 3]) 1 = column data 3 ∧
    ((colSelect data [0, 1]).all fun row => row.length == 2) = true ∧
    ((colSelect data [2, 3]).all fun row => row.length == 2) = true := by
  refine ⟨rfl, ?_, ?_, ?_, ?_, ?_, ?_⟩ <;>
    simp [column, colSelect, List.map_map, List.all_map, Function.comp_def]

/-- C8 (counter-evidence): the Converter's `process_data` on a `data is
None` message does not perform the claimed slice fetch. With a recorded
transfermode conversion away from `'sharedarray'` it raises `TypeError`
(it passes `self` as an extra positional argument to `get_array_slice`);
with no transfermode conversion recorded (input and output transfer modes
equal, e.g. both `'sharedarray'`) it forwards `(pos, None)` downstream
without fetching anything. The Splitter half of the claim does hold: its
`process_data` fetches the slice whenever `data is None`. -/
theorem converter_data_none_divergence :
    ThreadStreamConverter.process_data
        [("transfermode", "sharedarray", "plaindata")] 0 none = .error .typeError ∧
    ThreadStreamConverter.process_data [] 7 none = .ok (7, none) ∧
    ThreadSplitter.process_data [("a", [0])] (fun _ => [[42]]) 3 none
      = [("a", 3, [[42]])] :=
  ⟨rfl, rfl, rfl⟩

/-- The fields of `self.input.params` that `ChannelSplitter.after_input_connect`
reads from the negotiated input spec. -/
structure InputParams where
  dtype : String
  sample_rate : Int
  timeaxis : Nat
  nb_channel : Nat
  deriving DecidableEq, Repr

/-- The `stream_spec` dict built for one output of the ChannelSplitter. -/
structure OutputSpec where
  streamtype : String
  dtype : String
  sample_rate : Int
  port : String
  nb_channel : Nat
  timeaxis : Nat
  shape : Int × Int
  deriving DecidableEq, Repr

/-- The `output_timeaxis` parameter of `ChannelSplitter._configure`: an
axis index or the string `'same'`. -/
inductive OutputTimeaxis
  | same
  | fixed (t : Nat)
  deriving DecidableEq, Repr

/-- `if self.output_timeaxis == 'same': self.output_timeaxis = self.input.params['timeaxis']` -/
def resolveTimeaxis : OutputTimeaxis → InputParams → Nat
  | .same, p => p.timeaxis
  | .fixed t, _ => t

/-- The `for k, chans in self.output_channels.items()` loop of
`ChannelSplitter.after_input_connect`, building one `(k, stream_spec)` entry
per channel group:

    assert min(chans)>=0 and max(chans)<n, 'output_channels do not match channel count {}'.format(n)
    stream_spec = dict(streamtype='analogsignal', dtype=self.input.params['dtype'],
                       sample_rate=self.input.params['sample_rate'])
    stream_spec['shape'] = None
    stream_spec['port'] = '*'
    stream_spec['nb_channel'] = len(chans)
    stream_spec['timeaxis'] = timeaxis
    if timeaxis==0:
        stream_spec['shape'] = (-1, len(chans))
    else:
        stream_spec['shape'] = (len(chans), -1)
    output = OutputStream(spec=stream_spec)
    self.outputs[k] = output

Python's `min([])`/`max([])` raise `ValueError` before the comparison. -/
def ChannelSplitter.derive_loop (p : InputParams) (timeaxis : Nat) :
    List (String × List Int) → Except PyError (List (String × OutputSpec))
  | [] => .ok []
  | (k, chans) :: rest =>
    match chans with
    | [] => .error .valueError
    | c :: cs =>
      if 0 ≤ cs.foldl min c ∧ cs.foldl max c < (p.nb_channel : Int) then
        match ChannelSplitter.derive_loop p timeaxis rest with
        | .ok tail =>
          .ok ((k,
            { streamtype := "analogsignal", dtype := p.dtype,
              sample_rate := p.sample_rate, port := "*",
              nb_channel := chans.length, timeaxis := timeaxis,
              shape := if timeaxis = 0 then (-1, (chans.length : Int))
                       else ((chans.length : Int), -1) }) :: tail)
        | .error e => .error e
      else .error .channelOutOfRange

/-- `ChannelSplitter.after_input_connect(inputname)`: resolves
`output_timeaxis` (`'same'` means the input's own timeaxis), reads
`n = self.input.params['nb_channel']` and rebuilds `self.outputs` with one
dynamically created output per configured channel group. -/
def ChannelSplitter.after_input_connect (output_channels : List (String × List Int))
    (output_timeaxis : OutputTimeaxis) (p : InputParams) :
    Except PyError (List (String × OutputSpec)) :=
  ChannelSplitter.derive_loop p (resolveTimeaxis output_timeaxis p) output_channels

theorem foldl_min_le_init (c : Int) (cs : List Int) : cs.foldl min c ≤ c := by
  induction cs generalizing c with
  | nil => exact le_refl c
  | cons x xs ih => exact le_trans (ih (min c x)) (min_le_left c x)

theorem foldl_min_le_mem (c x : Int) (cs : List Int) (hx : x ∈ cs) :
    cs.foldl min c ≤ x := by
  induction cs generalizing c with
  | nil => cases hx
  | cons y ys ih =>
    rcases List.mem_cons.mp hx with h | h
    · subst h
      exact le_trans (foldl_min_le_init (min c x) ys) (min_le_right c x)
    · exact ih _ h

theorem foldl_min_mem (c : Int) (cs : List Int) :
    cs.foldl min c = c ∨ cs.foldl min c ∈ cs := by
  induction cs generalizing c with
  | nil => exact Or.inl rfl
  | cons x xs ih =>
    rcases ih (min c x) with h | h
    · rcases min_choice c x with hm | hm
      · exact Or.inl (by rw [List.foldl_cons, h, hm])
      · exact Or.inr (List.mem_cons.mpr (Or.inl (by rw [List.foldl_cons, h, hm])))
    · exact Or.inr (List.mem_cons.mpr (Or.inr h))

theorem le_foldl_max_init (c : Int) (cs : List Int) : c ≤ cs.foldl max c := by
  induction cs generalizing c with
  | nil => exact le_refl c
  | cons x xs ih => exact le_trans (le_max_left c x) (ih (max c x))

theorem le_foldl_max_mem (c x : Int) (cs : List Int) (hx : x ∈ cs) :
    x ≤ cs.foldl max c := by
  induction cs generalizing c with
  | nil => cases hx
  | cons y ys ih =>
    rcases List.mem_cons.mp hx with h | h
    · subst h
      exact le_trans (le_max_right c x) (le_foldl_max_init (max c x) ys)
    · exact ih _ h

theorem foldl_max_mem (c : Int) (cs : List Int) :
    cs.foldl max c = c ∨ cs.foldl max c ∈ cs := by
  induction cs generalizing c with
  | nil => exact Or.inl rfl
  | cons x xs ih =>
    rcases ih (max c x) with h | h
    · rcases max_choice c x with hm | hm
      · exact Or.inl (by rw [List.foldl_cons, h, hm])
      · exact Or.inr (List.mem_cons.mpr (Or.inl (by rw [List.foldl_cons, h, hm])))
    · exact Or.inr (List.mem_cons.mpr (Or.inr h))

theorem derive_loop_ok (p : InputParams) (ta : Nat) (cfg : List (String × List Int))
    (h : ∀ kc ∈ cfg, kc.2 ≠ [] ∧ ∀ c ∈ kc.2, 0 ≤ c ∧ c < (p.nb_channel : Int)) :
    ChannelSplitter.derive_loop p ta cfg
      = .ok (cfg.map fun kc => (kc.1,
          { streamtype := "analogsignal", dtype := p.dtype,
            sample_rate := p.sample_rate, port := "*",
            nb_channel := kc.2.length, timeaxis := ta,
            shape := if ta = 0 then (-1, (kc.2.length : Int))
                     else ((kc.2.length : Int), -1) })) := by
  induction cfg with
  | nil => rfl
  | cons kc rest ih =>
    obtain ⟨k, chans⟩ := kc
    obtain ⟨hne, hrange⟩ := h (k, chans) (List.mem_cons_self _ _)
    cases chans with
    | nil => exact absurd rfl hne
    | cons c cs =>
      have hmin : 0 ≤ cs.foldl min c := by
        rcases foldl_min_mem c cs with hm | hm
        · rw [hm]; exact (hrange c (List.mem_cons_self _ _)).1
        · exact (hrange _ (List.mem_cons_of_mem _ hm)).1
      have hmax : cs.foldl max c < (p.nb_channel : Int) := by
        rcases foldl_max_mem c cs with hm | hm
        · rw [hm]; exact (hrange c (List.mem_cons_self _ _)).2
        · exact (hrange _ (List.mem_cons_of_mem _ hm)).2
      have hrest : ∀ kc ∈ rest, kc.2 ≠ [] ∧
          ∀ c ∈ kc.2, 0 ≤ c ∧ c < (p.nb_channel : Int) :=
        fun kc hkc => h kc (List.mem_cons_of_mem _ hkc)
      simp only [ChannelSplitter.derive_loop]
      rw [if_pos ⟨hmin, hmax⟩, ih hrest]
      simp

theorem derive_loop_fails (p : InputParams) (ta : Nat) (cfg : List (String × List Int))
    (k : String) (chans : List Int) (c : Int)
    (hkc : (k, chans) ∈ cfg) (hc : c ∈ chans)
    (hbad : c < 0 ∨ (p.nb_channel : Int) ≤ c) :
    ∃ e, ChannelSplitter.derive_loop p ta cfg = .error e := by
  induction cfg with
  | nil => cases hkc
  | cons kc rest ih =>
    rcases List.mem_cons.mp hkc with h | h
    · subst h
      cases chans with
      | nil => cases hc
      | cons c0 cs =>
        have hnot : ¬ (0 ≤ cs.foldl min c0 ∧ cs.foldl max c0 < (p.nb_channel : Int)) := by
          rcases hbad with hlt | hge
          · intro hpair
            have hle : cs.foldl min c0 ≤ c := by
              rcases List.mem_cons.mp hc with h0 | h0
              · subst h0; exact foldl_min_le_init _ _
              · exact foldl_min_le_mem _ _ _ h0
            omega
          · intro hpair
            have hle : c ≤ cs.foldl max c0 := by
              rcases List.mem_cons.mp hc with h0 | h0
              · subst h0; exact le_foldl_max_init _ _
              · exact le_foldl_max_mem _ _ _ h0
            omega
        refine ⟨.channelOutOfRange, ?_⟩
        simp only [ChannelSplitter.derive_loop]
        rw [if_neg hnot]
    · obtain ⟨e, he⟩ := ih h
      obtain ⟨k1, chans1⟩ := kc
      cases chans1 with
      | nil => exact ⟨.valueError, rfl⟩
      | cons c1 cs1 =>
        by_cases hcond : 0 ≤ cs1.foldl min c1 ∧ cs1.foldl max c1 < (p.nb_channel : Int)
        · refine ⟨e, ?_⟩
          simp only [ChannelSplitter.derive_loop]
          rw [if_pos hcond, he]
        · refine ⟨.channelOutOfRange, ?_⟩
          simp only [ChannelSplitter.derive_loop]
          rw [if_neg hcond]

/-- C9: after input negotiation, `after_input_connect` derives exactly one
output slot per configured channel group: `nb_channel` is the group's
length, `dtype` and `sample_rate` are copied from the input spec, the
timeaxis is the configured one (the input's own when configured `'same'`),
and the shape is `(-1, len)` for timeaxis 0 and `(len, -1)` otherwise; and
the derivation fails whenever some group holds a channel index below 0 or
at-or-above the input's channel count. -/
theorem after_input_connect_spec (cfg : List (String × List Int))
    (ot : OutputTimeaxis) (p : InputParams) :
    ((∀ kc ∈ cfg, kc.2 ≠ [] ∧ ∀ c ∈ kc.2, 0 ≤ c ∧ c < (p.nb_channel : Int)) →
      ChannelSplitter.after_input_connect cfg ot p
        = .ok (cfg.map fun kc => (kc.1,
            { streamtype := "analogsignal", dtype := p.dtype,
              sample_rate := p.sample_rate, port := "*",
              nb_channel := kc.2.length, timeaxis := resolveTimeaxis ot p,
              shape := if resolveTimeaxis ot p = 0 then (-1, (kc.2.length : Int))
                       else ((kc.2.length : Int), -1) }))) ∧
    (∀ kc ∈ cfg, ∀ c ∈ kc.2, (c < 0 ∨ (p.nb_channel : Int) ≤ c) →
      ∃ e, ChannelSplitter.after_input_connect cfg ot p = .error e) := by
  constructor
  · intro h
    exact derive_loop_ok p (resolveTimeaxis ot p) cfg h
  · intro kc hkc c hc hbad
    exact derive_loop_fails p (resolveTimeaxis ot p) cfg kc.1 kc.2 c hkc hc hbad

/-- Witness for C9: the spec's concrete scenario — groups
`{"a": [0, 1], "b": [2, 3]}` over a 4-channel input with timeaxis 0 — and a
failing group holding channel index 4. -/
theorem after_input_connect_spec_witness :
    ChannelSplitter.after_input_connect [("a", [0, 1]), ("b", [2, 3])] .same
        { dtype := "float32", sample_rate := 20000, timeaxis := 0, nb_channel := 4 }
      = .ok ([("a", ([0, 1] : List Int)), ("b", ([2, 3] : List Int))].map fun kc => (kc.1,
          { streamtype := "analogsignal", dtype := "float32",
            sample_rate := 20000, port := "*",
            nb_channel := kc.2.length, timeaxis := 0,
            shape := if (0 : Nat) = 0 then (-1, (kc.2.length : Int))
                     else ((kc.2.length : Int), -1) })) ∧
    ∃ e, ChannelSplitter.after_input_connect [("bad", [4])] .same
        { dtype := "float32", sample_rate := 20000, timeaxis := 0, nb_channel := 4 }
      = .error e :=
  ⟨(after_input_connect_spec [("a", [0, 1]), ("b", [2, 3])] .same
      { dtype := "float32", sample_rate := 20000, timeaxis := 0, nb_channel := 4 }).1
      (by decide),
   (after_input_connect_spec [("bad", [4])] .same
      { dtype := "float32", sample_rate := 20000, timeaxis := 0, nb_channel := 4 }).2
      ("bad", [4]) (by simp) 4 (by simp) (Or.inr (by norm_num))⟩

end Pyacq
